import Mathlib

/-!
Shallow embedding of `pyblish_integration/lib.py`.

The module keeps three module-level variables (`self.proxy`, `self.port`,
`self.executable`) together with the process environment; its entry points
are `setup`, `show`, `_serve` (which starts the RPC server thread and the
heartbeat-emitter thread), `preload` (the worker-process launcher) and the
executable-registration helpers.  Every RPC call to the worker may fail
with `socket.error` or `socket.timeout`; these outcomes, together with the
outcomes of process spawning, polling and server startup, are supplied as
explicit behaviour records, and each entry point returns the exception it
raises to its caller (if any), the module state afterwards, and a trace of
its observable events.
-/

namespace PyblishIntegration

/-- Exceptions of the Python module, abstracted: `connectivity` stands for
`socket.error` and `socket.timeout`; `notInitialised` for the `TypeError`
raised by `show` when `self.port is None` (the spec's NotInitializedError);
`assertFailed` for the failure of `assert proc.poll() is None`;
`launchFailed` for an OS error out of `subprocess.Popen`; `serveFailed`
for an exception out of `_serve`. -/
inductive PyError
  | notInitialised
  | connectivity
  | assertFailed
  | launchFailed
  | serveFailed
  deriving DecidableEq

/-- Outcome of one RPC call to the worker through the proxy: success, or a
connectivity error (`socket.error` / `socket.timeout`). -/
inductive RpcOutcome
  | ok
  | connError
  deriving DecidableEq

/-- Flag from MSDN, `CREATE_NO_WINDOW = 0x08000000`. -/
def CREATE_NO_WINDOW : Nat := 0x08000000

/-- Environment variable for displaying the console with the GUI. -/
def PYBLISH_QML_CONSOLE : String := "PYBLISH_QML_CONSOLE"

/-- Environment variable through which the negotiated port is published. -/
def PYBLISH_CLIENT_PORT : String := "PYBLISH_CLIENT_PORT"

/-- `os.environ`, modelled as an association list from variable names to
string values; the most recent binding of a key shadows older ones. -/
abbrev Env := List (String × String)

/-- `os.environ.get(k)`. -/
def envGet (e : Env) (k : String) : Option String :=
  (e.find? (fun p => p.1 == k)).map (fun p => p.2)

/-- `os.environ[k] = v`. -/
def envSet (e : Env) (k v : String) : Env :=
  (k, v) :: e.filter (fun p => !(p.1 == k))

/-- Python truthiness of `os.environ.get(k)`: `None` and the empty string
are falsy, every other string is truthy.  `preload` computes its `console`
flag as `True if os.environ.get(PYBLISH_QML_CONSOLE) else False`. -/
def truthy : Option String → Bool
  | none => false
  | some s => !(s == "")

/-- The module-level mutable state of `lib.py` - `self.proxy`, `self.port`
and `self.executable` - together with the process environment the module
reads and writes.  `proxy` records whether a proxy handle has been created
(`self.proxy is not None`); the handle itself carries no data here. -/
structure ModuleState where
  proxy : Bool
  port : Option Nat
  executable : Option String
  env : Env
  deriving DecidableEq

/-- Observable effects of the module, in program order: proxy creation, the
`find_available_port` RPC call, a `show(port)` RPC call, a
`subprocess.Popen` attempt with its argument vector and creation flags,
the start of the RPC-server thread, the start of the heartbeat-emitter
thread, a `heartbeat(port)` RPC call, a `time.sleep`, and a `log.debug`. -/
inductive Event
  | proxyCreated
  | findPortCall
  | showCall (port : Nat)
  | launchAttempt (args : List String) (creationflags : Nat)
  | serverStarted (port : Nat)
  | heartbeatStarted (port : Nat)
  | heartbeatCall (port : Nat)
  | sleep (seconds : Nat)
  | logDebug (msg : String)
  deriving DecidableEq

/-- Result of running one of the module's entry points: the exception it
raises to its caller (if any), the module state afterwards, and the trace
of observable events. -/
structure RunResult where
  error : Option PyError
  state : ModuleState
  events : List Event
  deriving DecidableEq

/-- `register_python_executable(executable)`: store the override in
`self.executable`. -/
def register_python_executable (executable : String) (st : ModuleState) :
    ModuleState :=
  { st with executable := some executable }

/-- `registered_python_executable()`: read `self.executable`. -/
def registered_python_executable (st : ModuleState) : Option String :=
  st.executable

/-- The argument vector and creation flags computed by `preload`:
`console = True if os.environ.get(PYBLISH_QML_CONSOLE) else False`,
`executable = registered_python_executable() or "python"` (Python `or`, so
an empty-string override also falls back to the default), `args =
[executable, "-m", "pyblish_qml"]`, and `creationflags = CREATE_NO_WINDOW
if os.name == "nt" and not console else 0`.  `osName` stands for
`os.name`. -/
def preloadInvocation (osName : String) (st : ModuleState) :
    List String × Nat :=
  let console := truthy (envGet st.env PYBLISH_QML_CONSOLE)
  let executable :=
    match registered_python_executable st with
    | some s => if s = "" then "python" else s
    | none => "python"
  ([executable, "-m", "pyblish_qml"],
    if osName == "nt" && !console then CREATE_NO_WINDOW else 0)

/-- Behaviour of the environment during one `setup` run: `os.name`, the
outcome of `self.proxy.find_available_port()`, the port a live worker
returns on success, whether `subprocess.Popen` succeeds, whether the
freshly launched worker has already exited when `proc.poll()` is checked,
and whether `_serve` runs without raising. -/
structure SetupBehavior where
  osName : String
  findPort : RpcOutcome
  workerPort : Nat
  launchOk : Bool
  pollExited : Bool
  serveOk : Bool
  deriving DecidableEq

/-- Events of a successful `_serve(port)`: it starts the RPC-server thread
and the heartbeat-emitter thread, in that order, then logs
`"Server running @ %i" % port`. -/
def serveEvents (port : Nat) : List Event :=
  [Event.serverStarted port, Event.heartbeatStarted port,
    Event.logDebug ("Server running @ " ++ toString port)]

/-- The `finally` block of `setup`: publish the negotiated port through
`os.environ[PYBLISH_CLIENT_PORT]`, then run `_serve(self.port)` inside an
inner `try` whose bare `except` formats and logs any failure; a `pending`
exception raised in the `try`/`except` above resumes propagating only
after this block completes. -/
def setupFinally (b : SetupBehavior) (pending : Option PyError)
    (st : ModuleState) (evs : List Event) : RunResult :=
  let port := st.port.getD 0
  let st2 : ModuleState :=
    { st with env := envSet st.env PYBLISH_CLIENT_PORT (toString port) }
  if b.serveOk then
    { error := pending, state := st2,
      events := evs ++ serveEvents port ++
        [Event.logDebug "Integration successful!"] }
  else
    { error := pending, state := st2,
      events := evs ++ [Event.logDebug "Integration failed.."] }

/-- `setup(console)`.  When `console` is set, write
`os.environ[PYBLISH_QML_CONSOLE] = "1"`.  Then try a live worker: create a
proxy and ask it for the next available port; on `socket.timeout` or
`socket.error`, fall back to `pyblish_qml.server.first_port` (the external
constant is the parameter `firstPort`), launch a worker with `preload()`,
and `assert proc.poll() is None`.  The `finally` block publishes the port
and starts the background servers; a spawn failure or a failed assertion
propagates to the caller after the `finally` block has run. -/
def setup (firstPort : Nat) (console : Bool) (b : SetupBehavior)
    (st : ModuleState) : RunResult :=
  let env0 := if console then envSet st.env PYBLISH_QML_CONSOLE "1" else st.env
  let st0 : ModuleState := { st with env := env0 }
  match b.findPort with
  | RpcOutcome.ok =>
    let st1 : ModuleState := { st0 with proxy := true, port := some b.workerPort }
    setupFinally b none st1 [Event.proxyCreated, Event.findPortCall]
  | RpcOutcome.connError =>
    let st1 : ModuleState := { st0 with proxy := true, port := some firstPort }
    let inv := preloadInvocation b.osName st1
    let pending : Option PyError :=
      if !b.launchOk then some PyError.launchFailed
      else if b.pollExited then some PyError.assertFailed
      else none
    setupFinally b pending st1
      [Event.proxyCreated, Event.findPortCall, Event.launchAttempt inv.1 inv.2]

/-- Behaviour of the environment during one `show` run: `os.name`, the
outcome of the first `self.proxy.show(self.port)`, whether the
`subprocess.Popen` inside the `preload()` of the `except` handler
succeeds, and the outcome of the final `self.proxy.show(self.port)` of the
`finally` block. -/
structure ShowBehavior where
  osName : String
  firstShow : RpcOutcome
  launchOk : Bool
  finalShow : RpcOutcome
  deriving DecidableEq

/-- `show()` (named `showGui` because `show` is a Lean keyword).  Raises the
not-initialised `TypeError` when `self.port is None`; otherwise creates a
proxy if none is cached, calls `show(port)` in a `try`, runs `preload()`
in the `except (socket.error, socket.timeout)` handler, and in the
`finally` block always calls `show(port)` once more; an exception raised
by that final call replaces any pending one, and a pending exception
propagates once the `finally` block completes. -/
def showGui (b : ShowBehavior) (st : ModuleState) : RunResult :=
  match st.port with
  | none => { error := some PyError.notInitialised, state := st, events := [] }
  | some p =>
    let st1 : ModuleState := { st with proxy := true }
    let createEvs : List Event := if st.proxy then [] else [Event.proxyCreated]
    match b.firstShow with
    | RpcOutcome.ok =>
      { error :=
          match b.finalShow with
          | RpcOutcome.ok => none
          | RpcOutcome.connError => some PyError.connectivity,
        state := st1,
        events := createEvs ++ [Event.showCall p, Event.showCall p] }
    | RpcOutcome.connError =>
      let inv := preloadInvocation b.osName st1
      let pending : Option PyError :=
        if b.launchOk then none else some PyError.launchFailed
      { error :=
          match b.finalShow with
          | RpcOutcome.ok => pending
          | RpcOutcome.connError => some PyError.connectivity,
        state := st1,
        events := createEvs ++
          [Event.showCall p, Event.launchAttempt inv.1 inv.2,
            Event.showCall p] }

/-- One iteration of the `while True` loop of `heartbeat_emitter`:
`proxy.heartbeat(port)` followed by `time.sleep(1)`, wrapped in
`try ... except (socket.error, socket.timeout): pass` - so a connectivity
failure is swallowed and, because the sleep sits inside the `try`, the
sleep is skipped for that iteration. -/
def heartbeatIter (port : Nat) (o : RpcOutcome) : Option PyError × List Event :=
  match o with
  | RpcOutcome.ok => (none, [Event.heartbeatCall port, Event.sleep 1])
  | RpcOutcome.connError => (none, [Event.heartbeatCall port])

/-- A finite prefix of the unbounded `heartbeat_emitter` loop, driven by the
list of outcomes the worker produces for successive heartbeat calls; the
loop would stop early only if an iteration let an exception escape. -/
def heartbeatRun (port : Nat) : List RpcOutcome → Option PyError × List Event
  | [] => (none, [])
  | o :: rest =>
    match heartbeatIter port o with
    | (some e, evs) => (some e, evs)
    | (none, evs) =>
      let r := heartbeatRun port rest
      (r.1, evs ++ r.2)

/-- Recogniser for `show(port)` RPC-call events. -/
def isShowCall : Event → Bool
  | Event.showCall _ => true
  | _ => false

/-- Recogniser for worker-launch attempts. -/
def isLaunchAttempt : Event → Bool
  | Event.launchAttempt _ _ => true
  | _ => false

/-- Recogniser for `heartbeat(port)` RPC-call events. -/
def isHeartbeatCall : Event → Bool
  | Event.heartbeatCall _ => true
  | _ => false

/-- Recogniser for sleep events. -/
def isSleep : Event → Bool
  | Event.sleep _ => true
  | _ => false

/-- Recogniser for successful RPC outcomes. -/
def isOk : RpcOutcome → Bool
  | RpcOutcome.ok => true
  | RpcOutcome.connError => false

/-- Number of `show(port)` RPC calls in a trace. -/
def countShowCalls (evs : List Event) : Nat := (evs.filter isShowCall).length

/-- Number of worker-launch attempts in a trace. -/
def countLaunches (evs : List Event) : Nat :=
  (evs.filter isLaunchAttempt).length

/-- Number of `heartbeat(port)` RPC calls in a trace. -/
def countHeartbeatCalls (evs : List Event) : Nat :=
  (evs.filter isHeartbeatCall).length

/-- Number of sleep events in a trace. -/
def countSleeps (evs : List Event) : Nat := (evs.filter isSleep).length

/-- Holds when no two heartbeat calls are adjacent in a trace, i.e. some
event (in the source, the 1-unit sleep) separates every pair of successive
heartbeat calls. -/
def noAdjacentHeartbeats : List Event → Bool
  | e1 :: e2 :: rest =>
    !(isHeartbeatCall e1 && isHeartbeatCall e2) &&
      noAdjacentHeartbeats (e2 :: rest)
  | _ => true

/-- Holds when consecutive outcomes differ: the worker alternates between
reachable and unreachable across successive calls. -/
def alternates : List RpcOutcome → Bool
  | o1 :: o2 :: rest => !(o1 == o2) && alternates (o2 :: rest)
  | _ => true

/-- A fresh module state: `self.proxy = None`, `self.port = None`,
`self.executable = None`, empty environment. -/
def initState : ModuleState :=
  { proxy := false, port := none, executable := none, env := [] }

/-- A `setup` run in which the worker is unreachable, the fallback launch
spawns, and the launched process has already exited at the poll check. -/
def deadWorkerSetup : SetupBehavior :=
  { osName := "nt", findPort := RpcOutcome.connError, workerPort := 0,
    launchOk := true, pollExited := true, serveOk := true }

/-- A `setup` run in which a live worker answers `find_available_port`. -/
def liveWorkerSetup : SetupBehavior :=
  { osName := "posix", findPort := RpcOutcome.ok, workerPort := 9002,
    launchOk := true, pollExited := false, serveOk := true }

/-- A `show` run with the worker reachable on both calls. -/
def reachableShow : ShowBehavior :=
  { osName := "posix", firstShow := RpcOutcome.ok, launchOk := true,
    finalShow := RpcOutcome.ok }

/-- A `show` run with the worker unreachable throughout and the
re-bootstrap spawn failing as well. -/
def unreachableShow : ShowBehavior :=
  { osName := "nt", firstShow := RpcOutcome.connError, launchOk := false,
    finalShow := RpcOutcome.connError }

/-- A module state as left by a successful `setup` on port 9001. -/
def readyState : ModuleState :=
  { proxy := true, port := some 9001, executable := none, env := [] }

/-- An alternating reachable/unreachable/reachable worker behaviour. -/
def altOutcomes : List RpcOutcome :=
  [RpcOutcome.ok, RpcOutcome.connError, RpcOutcome.ok]

/-- Reading an environment that starts with one binding: the binding is
returned when the key matches, otherwise the rest is consulted. -/
theorem envGet_cons (k v k2 : String) (l : Env) :
    envGet ((k, v) :: l) k2 = if k = k2 then some v else envGet l k2 := by
  by_cases h : k = k2
  · have hb : (k == k2) = true := beq_iff_eq.mpr h
    simp [envGet, List.find?, hb, h]
  · have hb : (k == k2) = false := beq_eq_false_iff_ne.mpr h
    simp [envGet, List.find?, hb, h]

/-- Dropping the bindings of one key does not change reads of another. -/
theorem envGet_filter_ne (e : Env) (k1 k2 : String) (h : k1 ≠ k2) :
    envGet (e.filter (fun p => !(p.1 == k1))) k2 = envGet e k2 := by
  induction e with
  | nil => rfl
  | cons a e ih =>
    obtain ⟨ak, av⟩ := a
    by_cases hak : ak = k1
    · have hb : (ak == k1) = true := beq_iff_eq.mpr hak
      have hak2 : ¬ak = k2 := by rw [hak]; exact h
      rw [List.filter_cons]
      simp only [hb, Bool.not_true, Bool.false_eq_true, if_false]
      rw [ih, envGet_cons]
      simp [hak2]
    · have hb : (ak == k1) = false := beq_eq_false_iff_ne.mpr hak
      rw [List.filter_cons]
      simp only [hb, Bool.not_false, if_true]
      rw [envGet_cons, envGet_cons, ih]

/-- Writing one environment variable leaves reads of a different one
unchanged. -/
theorem envGet_envSet_ne (e : Env) (k1 v k2 : String) (h : k1 ≠ k2) :
    envGet (envSet e k1 v) k2 = envGet e k2 := by
  unfold envSet
  rw [envGet_cons]
  simp only [h, if_false]
  exact envGet_filter_ne e k1 k2 h

/-- Writing an environment variable makes reads of it return the value. -/
theorem envGet_envSet_self (e : Env) (k v : String) :
    envGet (envSet e k v) k = some v := by
  unfold envSet
  rw [envGet_cons]
  simp

/-- The console environment variable after `setup`: set to `"1"` when
`setup` was asked for a console, untouched otherwise. -/
theorem setup_consoleVar (firstPort : Nat) (console : Bool)
    (b : SetupBehavior) (st : ModuleState) :
    envGet (setup firstPort console b st).state.env PYBLISH_QML_CONSOLE =
      (if console then some "1" else envGet st.env PYBLISH_QML_CONSOLE) := by
  have hne : PYBLISH_CLIENT_PORT ≠ PYBLISH_QML_CONSOLE := by decide
  cases hf : b.findPort <;> cases hs : b.serveOk <;> cases console <;>
    simp [setup, setupFinally, hf, hs, envGet_envSet_ne _ _ _ _ hne,
      envGet_envSet_self]

/-- Heartbeat-call counting distributes over trace concatenation. -/
theorem countHeartbeatCalls_append (l1 l2 : List Event) :
    countHeartbeatCalls (l1 ++ l2) =
      countHeartbeatCalls l1 + countHeartbeatCalls l2 := by
  simp [countHeartbeatCalls, List.filter_append]

/-- Sleep counting distributes over trace concatenation. -/
theorem countSleeps_append (l1 l2 : List Event) :
    countSleeps (l1 ++ l2) = countSleeps l1 + countSleeps l2 := by
  simp [countSleeps, List.filter_append]

/-- The heartbeat loop, on any finite prefix of worker outcomes, lets no
exception escape, performs exactly one heartbeat call per iteration, and
sleeps exactly once per successful call. -/
theorem heartbeatRun_spec (port : Nat) (outcomes : List RpcOutcome) :
    (heartbeatRun port outcomes).1 = none ∧
    countHeartbeatCalls (heartbeatRun port outcomes).2 = outcomes.length ∧
    countSleeps (heartbeatRun port outcomes).2 =
      (outcomes.filter isOk).length := by
  induction outcomes with
  | nil => exact ⟨rfl, rfl, rfl⟩
  | cons o rest ih =>
    obtain ⟨ih1, ih2, ih3⟩ := ih
    cases o with
    | ok =>
      refine ⟨ih1, ?_, ?_⟩
      · show countHeartbeatCalls
            ([Event.heartbeatCall port, Event.sleep 1] ++
              (heartbeatRun port rest).2) =
          (RpcOutcome.ok :: rest).length
        rw [countHeartbeatCalls_append, ih2]
        have h1 : countHeartbeatCalls
            [Event.heartbeatCall port, Event.sleep 1] = 1 := rfl
        rw [h1, List.length_cons]
        omega
      · show countSleeps
            ([Event.heartbeatCall port, Event.sleep 1] ++
              (heartbeatRun port rest).2) =
          ((RpcOutcome.ok :: rest).filter isOk).length
        rw [countSleeps_append, ih3]
        have h1 : countSleeps [Event.heartbeatCall port, Event.sleep 1] = 1 := rfl
        rw [h1, List.filter_cons]
        simp [isOk]
        omega
    | connError =>
      refine ⟨ih1, ?_, ?_⟩
      · show countHeartbeatCalls
            ([Event.heartbeatCall port] ++ (heartbeatRun port rest).2) =
          (RpcOutcome.connError :: rest).length
        rw [countHeartbeatCalls_append, ih2]
        have h1 : countHeartbeatCalls [Event.heartbeatCall port] = 1 := rfl
        rw [h1, List.length_cons]
        omega
      · show countSleeps
            ([Event.heartbeatCall port] ++ (heartbeatRun port rest).2) =
          ((RpcOutcome.connError :: rest).filter isOk).length
        rw [countSleeps_append, ih3]
        have h1 : countSleeps [Event.heartbeatCall port] = 0 := rfl
        rw [h1, List.filter_cons]
        simp [isOk]

/-- C1 counterexample: with the worker unreachable, the fallback launch
spawning and the launched process already exited at the poll check,
`setup` nonetheless starts the RPC server and the heartbeat emitter, logs
"Integration successful!" and logs no failure - the assertion failure only
propagates afterwards - refuting the claim that it logs a failure and
starts neither background unit. -/
theorem setup_dead_worker_claim_false :
    Event.serverStarted 9001 ∈ (setup 9001 false deadWorkerSetup initState).events ∧
    Event.heartbeatStarted 9001 ∈ (setup 9001 false deadWorkerSetup initState).events ∧
    Event.logDebug "Integration successful!" ∈
      (setup 9001 false deadWorkerSetup initState).events ∧
    Event.logDebug "Integration failed.." ∉
      (setup 9001 false deadWorkerSetup initState).events ∧
    (setup 9001 false deadWorkerSetup initState).error =
      some PyError.assertFailed := by
  decide

/-- C1 (amended): if the worker launched on the fallback path has already
exited when `setup` polls it, the `finally` block still starts the RPC
server and the heartbeat emitter bound to the fallback port, and the
assertion failure then propagates out of `setup`. -/
theorem setup_dead_worker_starts_servers (firstPort : Nat) (console : Bool)
    (b : SetupBehavior) (st : ModuleState)
    (hf : b.findPort = RpcOutcome.connError) (hl : b.launchOk = true)
    (hp : b.pollExited = true) (hs : b.serveOk = true) :
    (setup firstPort console b st).error = some PyError.assertFailed ∧
    Event.serverStarted firstPort ∈ (setup firstPort console b st).events ∧
    Event.heartbeatStarted firstPort ∈ (setup firstPort console b st).events := by
  simp [setup, setupFinally, serveEvents, hf, hl, hp, hs]

/-- C1 witness: the amended theorem applied at a concrete dead-worker
setup run. -/
theorem setup_dead_worker_starts_servers_witness :
    (setup 9001 false deadWorkerSetup initState).error =
      some PyError.assertFailed ∧
    Event.serverStarted 9001 ∈ (setup 9001 false deadWorkerSetup initState).events ∧
    Event.heartbeatStarted 9001 ∈
      (setup 9001 false deadWorkerSetup initState).events :=
  setup_dead_worker_starts_servers 9001 false deadWorkerSetup initState
    rfl rfl rfl rfl

/-- C2 counterexample: `setup` can raise to its caller - with the fallback
worker dead at the poll check the assertion failure propagates - refuting
the claim that every exception is caught at the outer boundary. -/
theorem setup_raises_claim_false :
    (setup 9001 false deadWorkerSetup initState).error ≠ none := by
  decide

/-- C2 (amended): `setup` returns without raising exactly when port
negotiation succeeded, or the fallback launch both spawned the worker and
found it still alive at the poll check.  Connectivity errors during
negotiation and every exception during server startup are caught, but a
spawn failure or the dead-worker assertion propagates to the caller. -/
theorem setup_error_iff (firstPort : Nat) (console : Bool)
    (b : SetupBehavior) (st : ModuleState) :
    (setup firstPort console b st).error = none ↔
      (b.findPort = RpcOutcome.ok ∨
        (b.launchOk = true ∧ b.pollExited = false)) := by
  cases hf : b.findPort <;> cases hl : b.launchOk <;>
    cases hp : b.pollExited <;> cases hs : b.serveOk <;>
    simp [setup, setupFinally, hf, hl, hp, hs]

/-- C3 counterexample: after a successful setup, with the worker reachable
on every call, `show` issues two `show(port)` RPC calls - the one in the
`try` body and the unconditional one in the `finally` block - refuting the
claim of exactly one call. -/
theorem show_reachable_claim_false :
    countShowCalls (showGui reachableShow readyState).events ≠ 1 ∧
    countShowCalls (showGui reachableShow readyState).events = 2 := by
  decide

/-- C3 (amended): after setup, with the worker reachable on the first call,
`show` results in exactly two `show(port)` calls observed by the worker -
the successful call of the `try` body plus the unconditional final call of
the `finally` block - and attempts no re-bootstrap. -/
theorem show_reachable_two_calls (b : ShowBehavior) (st : ModuleState)
    (p : Nat) (hport : st.port = some p)
    (hfirst : b.firstShow = RpcOutcome.ok) :
    countShowCalls (showGui b st).events = 2 ∧
    countLaunches (showGui b st).events = 0 := by
  cases hpr : st.proxy <;>
    simp [showGui, hport, hfirst, hpr, countShowCalls, countLaunches,
      isShowCall, isLaunchAttempt, List.filter]

/-- C3 witness: the amended theorem applied at a concrete reachable-worker
run. -/
theorem show_reachable_two_calls_witness :
    countShowCalls (showGui reachableShow readyState).events = 2 ∧
    countLaunches (showGui reachableShow readyState).events = 0 :=
  show_reachable_two_calls reachableShow readyState 9001 rfl rfl

/-- C4: after setup, with the worker unreachable on the first call, `show`
performs exactly one re-bootstrap attempt and exactly two `show(port)`
calls - the failed one and one final call - and the final event of the run
is that unconditional `show(port)` call, whether or not the re-bootstrap
spawn succeeded. -/
theorem show_unreachable_rebootstrap (b : ShowBehavior) (st : ModuleState)
    (p : Nat) (hport : st.port = some p)
    (hfirst : b.firstShow = RpcOutcome.connError) :
    countLaunches (showGui b st).events = 1 ∧
    countShowCalls (showGui b st).events = 2 ∧
    (showGui b st).events.getLast? = some (Event.showCall p) := by
  cases hpr : st.proxy <;>
    simp [showGui, hport, hfirst, hpr, countShowCalls, countLaunches,
      isShowCall, isLaunchAttempt, List.filter, List.getLast?]

/-- C4 witness: the theorem applied at a concrete run whose re-bootstrap
spawn fails, showing the final call is attempted regardless. -/
theorem show_unreachable_rebootstrap_witness :
    countLaunches (showGui unreachableShow readyState).events = 1 ∧
    countShowCalls (showGui unreachableShow readyState).events = 2 ∧
    (showGui unreachableShow readyState).events.getLast? =
      some (Event.showCall 9001) :=
  show_unreachable_rebootstrap unreachableShow readyState 9001 rfl rfl

/-- C5: `show` with no negotiated port raises the not-initialised error and
produces no observable event, in particular no network call. -/
theorem show_uninitialised (b : ShowBehavior) (st : ModuleState)
    (hport : st.port = none) :
    (showGui b st).error = some PyError.notInitialised ∧
    (showGui b st).events = [] := by
  simp [showGui, hport]

/-- C5 witness: the theorem applied at the fresh module state. -/
theorem show_uninitialised_witness :
    (showGui reachableShow initState).error = some PyError.notInitialised ∧
    (showGui reachableShow initState).events = [] :=
  show_uninitialised reachableShow initState rfl

/-- C6: whenever the worker is unreachable during port negotiation, `setup`
stores the fixed first port and attempts exactly one worker launch. -/
theorem setup_fallback_port_one_launch (firstPort : Nat) (console : Bool)
    (b : SetupBehavior) (st : ModuleState)
    (hf : b.findPort = RpcOutcome.connError) :
    (setup firstPort console b st).state.port = some firstPort ∧
    countLaunches (setup firstPort console b st).events = 1 := by
  cases hs : b.serveOk <;>
    simp [setup, setupFinally, serveEvents, hf, hs, countLaunches,
      isLaunchAttempt, List.filter]

/-- C6 witness: the theorem applied at a concrete unreachable-worker setup
run. -/
theorem setup_fallback_port_one_launch_witness :
    (setup 9001 false deadWorkerSetup initState).state.port = some 9001 ∧
    countLaunches (setup 9001 false deadWorkerSetup initState).events = 1 :=
  setup_fallback_port_one_launch 9001 false deadWorkerSetup initState rfl

/-- C7: whenever a live worker answers `find_available_port`, `setup`
stores the port the worker returned and attempts no worker launch. -/
theorem setup_live_worker_port_no_launch (firstPort : Nat) (console : Bool)
    (b : SetupBehavior) (st : ModuleState)
    (hf : b.findPort = RpcOutcome.ok) :
    (setup firstPort console b st).state.port = some b.workerPort ∧
    countLaunches (setup firstPort console b st).events = 0 := by
  cases hs : b.serveOk <;>
    simp [setup, setupFinally, serveEvents, hf, hs, countLaunches,
      isLaunchAttempt, List.filter]

/-- C7 witness: the theorem applied at a concrete live-worker setup run. -/
theorem setup_live_worker_port_no_launch_witness :
    (setup 9001 false liveWorkerSetup initState).state.port = some 9002 ∧
    countLaunches (setup 9001 false liveWorkerSetup initState).events = 0 :=
  setup_live_worker_port_no_launch 9001 false liveWorkerSetup initState rfl

/-- C8 counterexample: with the worker alternating unreachable/reachable,
the heartbeat loop produces two adjacent heartbeat calls with no sleep
between them - after a connectivity failure the 1-unit sleep is skipped -
refuting the claimed fixed interval between successive calls. -/
theorem heartbeat_interval_claim_false :
    alternates [RpcOutcome.connError, RpcOutcome.ok] = true ∧
    (heartbeatRun 9001 [RpcOutcome.connError, RpcOutcome.ok]).2 =
      [Event.heartbeatCall 9001, Event.heartbeatCall 9001, Event.sleep 1] ∧
    noAdjacentHeartbeats
      (heartbeatRun 9001 [RpcOutcome.connError, RpcOutcome.ok]).2 = false := by
  decide

/-- C8 (amended): against a worker alternating reachable and unreachable,
the heartbeat emitter never lets an exception escape and performs one
heartbeat call per iteration for as many iterations as outcomes are
supplied - so it never terminates on its own - sleeping the fixed 1-unit
interval after each successful call but retrying immediately, without a
sleep, after a connectivity failure. -/
theorem heartbeat_never_dies (port : Nat) (outcomes : List RpcOutcome)
    (halt : alternates outcomes = true) :
    (heartbeatRun port outcomes).1 = none ∧
    countHeartbeatCalls (heartbeatRun port outcomes).2 = outcomes.length ∧
    countSleeps (heartbeatRun port outcomes).2 =
      (outcomes.filter isOk).length :=
  heartbeatRun_spec port outcomes

/-- C8 witness: the amended theorem applied at a concrete alternating
behaviour. -/
theorem heartbeat_never_dies_witness :
    (heartbeatRun 9001 altOutcomes).1 = none ∧
    countHeartbeatCalls (heartbeatRun 9001 altOutcomes).2 =
      altOutcomes.length ∧
    countSleeps (heartbeatRun 9001 altOutcomes).2 =
      (altOutcomes.filter isOk).length :=
  heartbeat_never_dies 9001 altOutcomes (by decide)

/-- C9: `preload` resolves the worker executable to the registered override
when a non-empty one is registered and to the default interpreter name
`"python"` otherwise (Python `or` treats an empty-string override like no
registration), and on Windows it passes `CREATE_NO_WINDOW` - suppressing
the worker's console window - exactly when the console configuration
variable is not set to a truthy value. -/
theorem preload_resolution (st : ModuleState)
    (hexe : st.executable ≠ some "") :
    (preloadInvocation "nt" st).1 =
      [st.executable.getD "python", "-m", "pyblish_qml"] ∧
    ((preloadInvocation "nt" st).2 = CREATE_NO_WINDOW ↔
      truthy (envGet st.env PYBLISH_QML_CONSOLE) = false) := by
  cases he : st.executable with
  | none =>
    cases hc : truthy (envGet st.env PYBLISH_QML_CONSOLE) <;>
      simp [preloadInvocation, registered_python_executable, he, hc,
        CREATE_NO_WINDOW]
  | some s =>
    have hs : ¬s = "" := fun hh => hexe (hh ▸ he)
    cases hc : truthy (envGet st.env PYBLISH_QML_CONSOLE) <;>
      simp [preloadInvocation, registered_python_executable, he, hs, hc,
        CREATE_NO_WINDOW]

/-- C9 witness: the theorem applied at a state with a registered override
and the console variable unset. -/
theorem preload_resolution_witness :
    (preloadInvocation "nt" (register_python_executable "mayapy" initState)).1 =
      [(register_python_executable "mayapy" initState).executable.getD "python",
        "-m", "pyblish_qml"] ∧
    ((preloadInvocation "nt" (register_python_executable "mayapy" initState)).2 =
        CREATE_NO_WINDOW ↔
      truthy (envGet (register_python_executable "mayapy" initState).env
        PYBLISH_QML_CONSOLE) = false) :=
  preload_resolution (register_python_executable "mayapy" initState)
    (by decide)

/-- C10: the console configuration is sticky - `setup` with `console =
false` leaves the variable untouched, so once an earlier `setup` with
`console = true` has set it, the variable is still truthy after the later
call and every subsequent worker launch on Windows uses creation flags 0,
showing the console. -/
theorem setup_console_sticky (fp1 fp2 : Nat) (b1 b2 : SetupBehavior)
    (st : ModuleState) :
    truthy (envGet
      (setup fp2 false b2 (setup fp1 true b1 st).state).state.env
      PYBLISH_QML_CONSOLE) = true ∧
    (preloadInvocation "nt"
      (setup fp2 false b2 (setup fp1 true b1 st).state).state).2 = 0 := by
  have h2 := setup_consoleVar fp2 false b2 (setup fp1 true b1 st).state
  have h1 := setup_consoleVar fp1 true b1 st
  simp only [if_false] at h2
  simp only [if_true] at h1
  rw [h1] at h2
  refine ⟨?_, ?_⟩
  · rw [h2]; rfl
  · simp [preloadInvocation, h2, truthy]

end PyblishIntegration
